import Mathlib

/-!
Shallow embedding of the finna-mcp interactive clients
(`examples/mcp_tui.py` and `examples/mcp_cli.py`): the session
orchestrator, the model-catalog cache, the history log and the
command dispatcher, together with theorems checking the behavioural
claims of the specification against these definitions.

Python strings are modelled as Lean `String` (a wrapper around
`List Char`), restricted to ASCII case mapping; Unix time is
modelled in whole seconds as `Nat`.
-/

namespace FinnaMcp

/-- Decidable equality for `Except`, used to evaluate fetch outcomes on
concrete inputs. -/
instance {ε α : Type _} [DecidableEq ε] [DecidableEq α] : DecidableEq (Except ε α) := fun a b =>
  match a, b with
  | Except.error e, Except.error f =>
      if h : e = f then isTrue (by rw [h]) else isFalse (by simp [h])
  | Except.ok x, Except.ok y =>
      if h : x = y then isTrue (by rw [h]) else isFalse (by simp [h])
  | Except.error _, Except.ok _ => isFalse (by simp)
  | Except.ok _, Except.error _ => isFalse (by simp)

/-! ### Python string primitives -/

/-- Python `s.lower()` (ASCII case mapping). -/
def pyLower (s : String) : String := ⟨s.data.map Char.toLower⟩

/-- Whitespace stripping on the character list, both ends. -/
def pyStripChars (l : List Char) : List Char :=
  ((l.dropWhile Char.isWhitespace).reverse.dropWhile Char.isWhitespace).reverse

/-- Python `s.strip()`. -/
def pyStrip (s : String) : String := ⟨pyStripChars s.data⟩

/-- Python `s.startswith(p)`. -/
def pyStartsWith (s p : String) : Bool := p.data.isPrefixOf s.data

/-- Python `s.endswith(p)`. -/
def pyEndsWith (s p : String) : Bool := p.data.isSuffixOf s.data

/-- Helper for substring search: does `needle` occur in the list? -/
def pyContainsAux (needle : List Char) : List Char → Bool
  | [] => needle.isEmpty
  | c :: cs => needle.isPrefixOf (c :: cs) || pyContainsAux needle cs

/-- Python `sub in s` (contiguous substring test). -/
def pyContains (s sub : String) : Bool := pyContainsAux sub.data s.data

/-- Python `s.isdigit()`: non-empty and all characters are digits
(restricted to ASCII digits). -/
def pyIsDigit (s : String) : Bool := !s.data.isEmpty && s.data.all Char.isDigit

/-- Python `int(s)` for a string of ASCII digits (48 is the code point
of the digit zero). -/
def pyInt (s : String) : Nat :=
  s.data.foldl (fun acc c => 10 * acc + (c.toNat - 48)) 0

/-- Everything after the first space character (empty if there is none). -/
def pyDropThroughSpace : List Char → List Char
  | [] => []
  | c :: cs => if c = ' ' then cs else pyDropThroughSpace cs

/-- Python `s.split(" ", 1)[1]` for a string containing a space. -/
def pySplitOnceTail (s : String) : String := ⟨pyDropThroughSpace s.data⟩

/-- Python `l[-n:]`: the last `n` elements of a list. -/
def pyTakeLast {α : Type _} (n : Nat) (l : List α) : List α :=
  l.drop (l.length - n)

/-! ### Model catalog: descriptors, cache, fetch
(`_MODEL_CACHE`, `_fetch_openrouter_models`, `_normalize_openrouter_model`) -/

/-- One entry of the OpenRouter catalog payload: its `"id"` and `"name"`
fields. -/
structure ModelDesc where
  id : String
  name : String
deriving DecidableEq

/-- The model cache `_MODEL_CACHE = {"ts": ..., "data": [...]}` (the
in-memory global, kept in sync with the cache file by
`_load_model_cache` / `_save_model_cache`; we model the post-load
state). -/
structure ModelCache where
  ts : Nat
  data : List ModelDesc
deriving DecidableEq

/-- `_fetch_openrouter_models(force)`.  The remote HTTP call and JSON
decode are modelled by the `remote` argument: `Except.error` when
`urllib`/`json` raises, `Except.ok data` for a decoded payload whose
`"data"` field is the given list (a missing field decodes to `[]`).
`now` stands for `time.time()`.  Returns the model list, the
`servedFromCache` flag and the cache state after the call. -/
def fetch_openrouter_models (cache : ModelCache) (now : Nat) (force : Bool)
    (remote : Except String (List ModelDesc)) :
    Except String (List ModelDesc × Bool × ModelCache) :=
  if force = false ∧ cache.data ≠ [] ∧ now - cache.ts < 3600 then
    Except.ok (cache.data, true, cache)
  else
    match remote with
    | Except.error e => Except.error e
    | Except.ok data =>
        if data ≠ [] then
          Except.ok (data, false, { ts := now, data := data })
        else
          Except.ok (data, false, cache)

/-- `_normalize_openrouter_model(model_id)` at a fixed cache state
`cacheData` (the code reloads `_MODEL_CACHE["data"]` before the
membership test). -/
def normalize_openrouter_model (cacheData : List ModelDesc) (model_id : String) : String :=
  if pyStartsWith model_id "openrouter:" then model_id
  else if model_id = "" then model_id
  else if cacheData.any (fun item => item.id == model_id) then
    "openrouter:" ++ model_id
  else model_id

/-! ### Sorting and listing (`_format_model_list`, `_build_model_options`) -/

/-- Ordering by display name, code-point lexicographic (Python string
comparison on the `"name"` key). -/
def nameLe (a b : ModelDesc) : Prop := a.name.data ≤ b.name.data

instance : DecidableRel nameLe := fun a b =>
  inferInstanceAs (Decidable (a.name.data ≤ b.name.data))

instance : IsTotal ModelDesc nameLe := ⟨fun a b => le_total a.name.data b.name.data⟩

instance : IsTrans ModelDesc nameLe := ⟨fun _ _ _ => le_trans⟩

/-- Python `sorted(models, key=lambda item: item.get("name", ""))`
(a comparison sort by the same key; tie order among equal names is not
relied on by any claim). -/
def sortByName (models : List ModelDesc) : List ModelDesc :=
  List.insertionSort nameLe models

/-- Python `f"{idx:2d}"`: right-aligned in width 2. -/
def pad2 (n : Nat) : String := if n < 10 then " " ++ toString n else toString n

/-- One numbered line of the interactive `/models` listing. -/
def modelLine (idx : Nat) (item : ModelDesc) : String :=
  pad2 idx ++ ". " ++ item.id ++ " - " ++ item.name

/-- `_format_model_list(models)`: header, at most 25 numbered entries
sorted by name, footer. -/
def format_model_list (models : List ModelDesc) : List String :=
  if models.isEmpty then ["System: no models returned from OpenRouter."]
  else
    "System: OpenRouter models (first 25):"
      :: ((sortByName models).take 25).mapIdx (fun i item => modelLine (i + 1) item)
      ++ ["System: select with /model <number|id>."]

/-- The filter predicate of `_build_model_options`: case-insensitive
substring match of the (already lowered) query against id or name. -/
def matchesQuery (q : String) (item : ModelDesc) : Bool :=
  pyContains (pyLower item.id) q || pyContains (pyLower item.name) q

/-- The `filtered` list of `_build_model_options`: the full set when the
(stripped, lowered) query is empty, the matching subset otherwise. -/
def filteredByQuery (models : List ModelDesc) (q : String) : List ModelDesc :=
  if q = "" then models else models.filter (matchesQuery q)

/-- `FinnaTUI._build_model_options(models, query)`: strip and lower the
query, filter, sort by name, keep the first 50, render `(label, id)`
option pairs. -/
def build_model_options (models : List ModelDesc) (query : String) :
    List (String × String) :=
  let q := pyLower (pyStrip query)
  ((sortByName (filteredByQuery models q)).take 50).map
    (fun item => (item.id ++ " - " ++ item.name, item.id))

/-! ### Model selection (`FinnaTUI._select_model`) -/

/-- Outcome of `FinnaTUI._select_model`: early return on the blank
guard, the "Invalid model selection." message, or a chosen id (which the
caller then normalizes and installs). -/
inductive SelectOutcome where
  | noop
  | invalid
  | chosen (id : String)
deriving DecidableEq

/-- Default descriptor for the guarded list index. -/
def defaultModelDesc : ModelDesc := ⟨"", ""⟩

/-- `FinnaTUI._select_model(selection)` over the current
`self.model_options` listing, up to the point where `chosen` is
resolved (lines 383-395): numeric tokens index the listing, everything
else is a literal id. -/
def select_model (selection : String) (model_options : List ModelDesc) : SelectOutcome :=
  if selection = "" ∨ selection = "Select.BLANK" then SelectOutcome.noop
  else
    let chosen : Option String :=
      if pyIsDigit selection ∧ model_options ≠ [] then
        let index := pyInt selection
        if 1 ≤ index ∧ index ≤ min 25 model_options.length then
          some ((model_options.getD (index - 1) defaultModelDesc).id)
        else none
      else some selection
    match chosen with
    | none => SelectOutcome.invalid
    | some c => if c = "" then SelectOutcome.invalid else SelectOutcome.chosen c

/-! ### Transcript lines, history log, session state (`FinnaTUI`) -/

/-- One line of the conversation log: the text written to
`self.conversation_lines` and the rich style it is rendered with
(`blue` marks System lines, `red` Error lines, `cyan` User lines,
`green` Assistant lines). -/
structure Line where
  text : String
  style : Option String
deriving DecidableEq

/-- The history log: the in-memory `self.history_entries`, the cursor
`self.history_index`, and the lines of the persisted history file. -/
structure HistoryState where
  entries : List String
  index : Nat
  file : List String
deriving DecidableEq

/-- `_save_history(entries)`: the persisted file holds `entries[-1000:]`. -/
def save_history (entries : List String) : List String := pyTakeLast 1000 entries

/-- `FinnaTUI._append_history(user_input)`: append in memory, reset the
cursor past-end, persist immediately. -/
def append_history (h : HistoryState) (user_input : String) : HistoryState :=
  let entries := h.entries ++ [user_input]
  { entries := entries, index := entries.length, file := save_history entries }

/-- `FinnaTUI._navigate_history(delta)`: clamp the cursor into
`[0, len(entries)]` and report the prompt assignment (`none` when the
early empty-history return fires, `some ""` past-end, otherwise the
entry at the cursor). -/
def navigate_history (h : HistoryState) (delta : Int) : HistoryState × Option String :=
  if h.entries = [] then (h, none)
  else
    let newIndex := (max 0 (min (h.entries.length : Int) ((h.index : Int) + delta))).toNat
    let h2 := { h with index := newIndex }
    if newIndex ≥ h.entries.length then (h2, some "")
    else (h2, some (h.entries.getD newIndex ""))

/-- The orchestrator state of `FinnaTUI`: conversation transcript,
history log, the current task handle (`none` when `self.current_task`
is `None`, `some done` for a task whose `.done()` is `done`), and the
current model id. -/
structure SessionState where
  conversation : List Line
  history : HistoryState
  currentTask : Option Bool
  model : String
deriving DecidableEq

/-- Python `self.current_task and not self.current_task.done()`. -/
def taskInFlight : Option Bool → Bool
  | some done => !done
  | none => false

/-- The Busy System line of `_handle_user_input`. -/
def busyLine : Line :=
  ⟨"System: Request already in progress. Press Stop to cancel.", some "blue"⟩

/-- The free-text branch of `FinnaTUI._handle_user_input` (lines
337-344): append to history, then either report Busy (leaving the
in-flight task untouched) or start a new agent task. -/
def submit_question (s : SessionState) (user_input : String) : SessionState :=
  let s1 := { s with history := append_history s.history user_input }
  if taskInFlight s1.currentTask then
    { s1 with conversation := s1.conversation ++ [busyLine] }
  else
    { s1 with currentTask := some false }

/-- Outcome of `self.agent.run(...)` as observed by `_run_agent`:
normal output, `asyncio.CancelledError`, or any other exception
(carrying its `_format_error` rendering). -/
inductive RunResult where
  | ok (output : String)
  | cancelled
  | failed (errText : String)
deriving DecidableEq

/-- `FinnaTUI._run_agent(user_input)`: append the User line, run the
agent, then append the Assistant line (success), the cancellation
System line (`asyncio.CancelledError`), or the Error line (any other
exception); the `finally` block clears `self.current_task` on every
path. -/
def run_agent (s : SessionState) (user_input : String) (r : RunResult) : SessionState :=
  let s1 := { s with conversation := s.conversation ++ [Line.mk ("User: " ++ user_input) (some "cyan")] }
  let s2 :=
    match r with
    | RunResult.cancelled =>
        { s1 with conversation := s1.conversation ++ [Line.mk "System: Request cancelled." (some "blue")] }
    | RunResult.failed errText =>
        { s1 with conversation := s1.conversation ++ [Line.mk ("Error: " ++ errText) (some "red")] }
    | RunResult.ok output =>
        { s1 with conversation := s1.conversation ++ [Line.mk ("Assistant: " ++ output) (some "green")] }
  { s2 with currentTask := none }

/-- The System line appended by the Stop button when a task is running. -/
def stoppingLine : Line := ⟨"System: Stopping request...", some "blue"⟩

/-- The System line appended by the Stop button when nothing is running. -/
def noRequestLine : Line := ⟨"System: No request in progress.", some "blue"⟩

/-- The `stop-run` branch of `FinnaTUI.on_button_pressed`: cancel the
in-flight task if there is one, otherwise report that nothing is
running.  The boolean records whether `task.cancel()` was invoked. -/
def on_stop_pressed (s : SessionState) : SessionState × Bool :=
  if taskInFlight s.currentTask then
    ({ s with conversation := s.conversation ++ [stoppingLine] }, true)
  else
    ({ s with conversation := s.conversation ++ [noRequestLine] }, false)

/-! ### Command dispatch (`FinnaTUI._handle_user_input`, lines 319-344) -/

/-- How `_handle_user_input` classifies an input line: one of the four
command branches, or fall-through to free-text submission. -/
inductive InputAction where
  | exitCmd
  | clearCmd
  | modelsCmd (force : Bool)
  | modelCmd (token : String)
  | freeText
deriving DecidableEq

/-- The dispatch chain of `FinnaTUI._handle_user_input`: exact
case-insensitive `/exit` and `/clear`, then the `startswith` checks for
`/models` (force iff the stripped lowered input ends in `!`) and
`/model `, else free text. -/
def handle_user_input (user_input : String) : InputAction :=
  if pyLower user_input = "/exit" then InputAction.exitCmd
  else if pyLower user_input = "/clear" then InputAction.clearCmd
  else if pyStartsWith (pyLower user_input) "/models" then
    InputAction.modelsCmd (pyEndsWith (pyLower (pyStrip user_input)) "!")
  else if pyStartsWith (pyLower user_input) "/model " then
    InputAction.modelCmd (pyStrip (pySplitOnceTail user_input))
  else InputAction.freeText

/-! ### Helper lemmas -/

theorem isPrefixOf_eq_append {α : Type _} [BEq α] [LawfulBEq α] (a b : List α) :
    a.isPrefixOf b = true ↔ ∃ t, b = a ++ t := by
  induction a generalizing b with
  | nil =>
      simp [List.isPrefixOf]
  | cons x xs ih =>
      cases b with
      | nil => simp [List.isPrefixOf]
      | cons y ys =>
          simp only [List.isPrefixOf, Bool.and_eq_true, beq_iff_eq, ih, List.cons_append,
            List.cons.injEq]
          constructor
          · rintro ⟨hxy, t, ht⟩
            exact ⟨t, hxy.symm, ht⟩
          · rintro ⟨t, hxy, ht⟩
            exact ⟨hxy.symm, t, ht⟩

theorem pyStartsWith_append (p s : String) : pyStartsWith (p ++ s) p = true := by
  unfold pyStartsWith
  rw [String.data_append, isPrefixOf_eq_append]
  exact ⟨s.data, rfl⟩

theorem normalize_startsWith (cacheData : List ModelDesc) (model_id : String)
    (h : pyStartsWith model_id "openrouter:" = true) :
    normalize_openrouter_model cacheData model_id = model_id := by
  unfold normalize_openrouter_model
  simp [h]

/-! ### Claim C10 -/

/-- C10: model-id normalization is idempotent with respect to a fixed
cache state: any id carrying the `openrouter:` provider prefix is
returned as-is, so `normalize (normalize id) = normalize id`. -/
theorem C10_normalize_idempotent (cacheData : List ModelDesc) (model_id : String) :
    normalize_openrouter_model cacheData (normalize_openrouter_model cacheData model_id)
      = normalize_openrouter_model cacheData model_id := by
  by_cases h1 : pyStartsWith model_id "openrouter:" = true
  · rw [normalize_startsWith cacheData model_id h1, normalize_startsWith cacheData model_id h1]
  · rw [Bool.not_eq_true] at h1
    by_cases h2 : model_id = ""
    · subst h2
      have hempty : normalize_openrouter_model cacheData "" = "" := by
        unfold normalize_openrouter_model
        simp [h1]
      rw [hempty, hempty]
    · by_cases h3 : cacheData.any (fun item => item.id == model_id) = true
      · have e1 : normalize_openrouter_model cacheData model_id = "openrouter:" ++ model_id := by
          unfold normalize_openrouter_model
          simp [h1, h2, h3]
        rw [e1, normalize_startsWith cacheData _ (pyStartsWith_append "openrouter:" model_id)]
      · rw [Bool.not_eq_true] at h3
        have e2 : normalize_openrouter_model cacheData model_id = model_id := by
          unfold normalize_openrouter_model
          simp [h1, h2, h3]
        rw [e2, e2]

/-! ### Claim C3 -/

/-- C3: a cancelled run appends a System line
(`System: Request cancelled.`, styled blue), a non-cancellation failure
appends an Error line (`Error: ...`, styled red), and a cancelled run
never adds a red Error line to the transcript. -/
theorem C3_cancellation_not_error (s : SessionState) (q errText : String) :
    (run_agent s q RunResult.cancelled).conversation
        = s.conversation
            ++ [Line.mk ("User: " ++ q) (some "cyan"),
                Line.mk "System: Request cancelled." (some "blue")]
    ∧ (run_agent s q (RunResult.failed errText)).conversation
        = s.conversation
            ++ [Line.mk ("User: " ++ q) (some "cyan"),
                Line.mk ("Error: " ++ errText) (some "red")]
    ∧ (∀ l, l ∈ (run_agent s q RunResult.cancelled).conversation →
          l.style = some "red" → l ∈ s.conversation) := by
  refine ⟨by simp [run_agent], by simp [run_agent], ?_⟩
  intro l hl hred
  simp only [run_agent, List.append_assoc, List.mem_append, List.mem_cons,
    List.mem_singleton, List.not_mem_nil, or_false] at hl
  rcases hl with hl | hl | hl
  · exact hl
  · subst hl
    simp at hred
  · subst hl
    simp at hred

/-- Witness for C3 at a concrete session state. -/
theorem C3_cancellation_not_error_witness :
    (run_agent (SessionState.mk [] (HistoryState.mk [] 0 []) (some false) "m") "q"
        RunResult.cancelled).conversation
      = [Line.mk "User: q" (some "cyan"),
         Line.mk "System: Request cancelled." (some "blue")] := by
  have h := C3_cancellation_not_error (SessionState.mk [] (HistoryState.mk [] 0 []) (some false) "m") "q" "e"
  exact h.1.trans (by decide)

/-! ### Claim C1 -/

/-- C1: submitting free text while a request is in flight appends the
Busy System line, leaves the in-flight task untouched (no second
request is created and nothing is queued: the only state changes are
the history append and the Busy transcript entry). -/
theorem C1_single_in_flight (s : SessionState) (q : String)
    (h : taskInFlight s.currentTask = true) :
    submit_question s q
      = { s with history := append_history s.history q,
                 conversation := s.conversation ++ [busyLine] }
    ∧ (submit_question s q).currentTask = s.currentTask
    ∧ pyStartsWith busyLine.text "System:" = true
    ∧ busyLine.style = some "blue" := by
  have e : submit_question s q
      = { s with history := append_history s.history q,
                 conversation := s.conversation ++ [busyLine] } := by
    unfold submit_question
    simp [h]
  refine ⟨e, ?_, by decide, by decide⟩
  rw [e]

/-- Witness for C1: a busy session stays busy with the same task. -/
theorem C1_single_in_flight_witness :
    taskInFlight (SessionState.mk [] (HistoryState.mk [] 0 []) (some false) "m").currentTask = true
    ∧ (submit_question (SessionState.mk [] (HistoryState.mk [] 0 []) (some false) "m") "hi").currentTask
        = (SessionState.mk [] (HistoryState.mk [] 0 []) (some false) "m").currentTask :=
  ⟨by decide, (C1_single_in_flight _ "hi" (by decide)).2.1⟩

/-! ### Claim C9 -/

/-- Counterexample to C9 as stated: pressing Stop with no request in
flight is not a transcript no-op — it appends the
`System: No request in progress.` line. -/
theorem C9_counterexample :
    taskInFlight (SessionState.mk [] (HistoryState.mk [] 0 []) none "m").currentTask = false
    ∧ (on_stop_pressed (SessionState.mk [] (HistoryState.mk [] 0 []) none "m")).1.conversation
        ≠ (SessionState.mk [] (HistoryState.mk [] 0 []) none "m").conversation := by
  decide

/-- C9 (amended): cancel with no in-flight request signals no
cancellation, never fails, and leaves inFlight, history and
currentModel unchanged; the only effect is one informational System
line appended to the transcript. -/
theorem C9_cancel_no_inflight (s : SessionState) (h : taskInFlight s.currentTask = false) :
    on_stop_pressed s = ({ s with conversation := s.conversation ++ [noRequestLine] }, false)
    ∧ (on_stop_pressed s).2 = false
    ∧ (on_stop_pressed s).1.history = s.history
    ∧ (on_stop_pressed s).1.currentTask = s.currentTask
    ∧ (on_stop_pressed s).1.model = s.model := by
  have e : on_stop_pressed s
      = ({ s with conversation := s.conversation ++ [noRequestLine] }, false) := by
    unfold on_stop_pressed
    simp [h]
  refine ⟨e, ?_, ?_, ?_, ?_⟩ <;> rw [e]

/-- Witness for C9 (amended) at a concrete idle session. -/
theorem C9_cancel_no_inflight_witness :
    taskInFlight (SessionState.mk [] (HistoryState.mk [] 0 []) none "m").currentTask = false
    ∧ (on_stop_pressed (SessionState.mk [] (HistoryState.mk [] 0 []) none "m")).2 = false :=
  ⟨by decide, (C9_cancel_no_inflight _ (by decide)).2.1⟩

/-! ### Claim C7 -/

/-- Replaying a sequence of navigation deltas through
`_navigate_history`. -/
def navigate_many (h : HistoryState) (ds : List Int) : HistoryState :=
  ds.foldl (fun t d => (navigate_history t d).1) h

theorem navigate_many_cons (h : HistoryState) (d : Int) (ds : List Int) :
    navigate_many h (d :: ds) = navigate_many (navigate_history h d).1 ds := rfl

theorem navigate_history_fst (h : HistoryState) (d : Int) :
    (navigate_history h d).1
      = if h.entries = [] then h
        else { h with
                index := (max 0 (min (h.entries.length : Int) ((h.index : Int) + d))).toNat } := by
  unfold navigate_history
  by_cases he : h.entries = []
  · simp [he]
  · simp only [he, if_false]
    split_ifs <;> rfl

theorem navigate_history_entries (h : HistoryState) (d : Int) :
    (navigate_history h d).1.entries = h.entries := by
  rw [navigate_history_fst]
  split_ifs <;> rfl

theorem navigate_history_index_le (h : HistoryState) (d : Int)
    (hle : h.index ≤ h.entries.length) :
    (navigate_history h d).1.index ≤ h.entries.length := by
  rw [navigate_history_fst]
  by_cases he : h.entries = []
  · rw [if_pos he]
    exact hle
  · simp only [he, if_false]
    rw [Int.toNat_le]
    exact max_le (Nat.cast_nonneg _) (min_le_left _ _)

theorem navigate_many_invariant (h : HistoryState) (hle : h.index ≤ h.entries.length)
    (ds : List Int) :
    (navigate_many h ds).entries = h.entries
      ∧ (navigate_many h ds).index ≤ h.entries.length := by
  induction ds generalizing h with
  | nil => exact ⟨rfl, hle⟩
  | cons d ds ih =>
      have h1 := navigate_history_entries h d
      have h2 := navigate_history_index_le h d hle
      have h3 := ih (navigate_history h d).1 (by rw [h1]; exact h2)
      rw [navigate_many_cons]
      exact ⟨h3.1.trans h1, by rw [← h1]; exact h3.2⟩

/-- C7: navigation keeps the cursor clamped to `[0, len(entries)]`
across any sequence of moves, `navigate(-1)` at the oldest entry stays
at 0, `navigate(+1)` at the past-end sentinel stays there, and whenever
the cursor lands past-end the empty value is returned. -/
theorem C7_navigate_clamped (h : HistoryState) (hle : h.index ≤ h.entries.length) :
    (∀ ds : List Int, (navigate_many h ds).entries = h.entries
        ∧ (navigate_many h ds).index ≤ h.entries.length)
    ∧ (h.index = 0 → (navigate_history h (-1)).1.index = 0)
    ∧ (h.index = h.entries.length → (navigate_history h 1).1.index = h.entries.length)
    ∧ (∀ d : Int, h.entries ≠ [] →
        (navigate_history h d).1.index ≥ h.entries.length →
        (navigate_history h d).2 = some "") := by
  refine ⟨navigate_many_invariant h hle, ?_, ?_, ?_⟩
  · intro h0
    rw [navigate_history_fst]
    by_cases he : h.entries = []
    · simp [he, h0]
    · simp only [he, if_false, h0]
      omega
  · intro hend
    rw [navigate_history_fst]
    by_cases he : h.entries = []
    · simp [he, hend]
    · simp only [he, if_false, hend]
      omega
  · intro d he hge
    rw [navigate_history_fst] at hge
    simp only [he, if_false] at hge
    unfold navigate_history
    simp only [he, if_false]
    split_ifs
    rfl

/-- Witness for C7: from the past-end sentinel, moving forward stays at
the sentinel. -/
theorem C7_navigate_clamped_witness :
    (HistoryState.mk ["x", "y"] 2 []).index ≤ (HistoryState.mk ["x", "y"] 2 []).entries.length
    ∧ (navigate_history (HistoryState.mk ["x", "y"] 2 []) 1).1.index
        = (HistoryState.mk ["x", "y"] 2 []).entries.length :=
  ⟨by decide, (C7_navigate_clamped _ (by decide)).2.2.1 (by decide)⟩

/-! ### Claim C4 -/

/-- A family of pairwise distinct history entries. -/
def distinctEntries (k : Nat) : List String :=
  (List.range k).map (fun n => String.mk (List.replicate n 'a'))

theorem distinctEntries_nodup (k : Nat) : (distinctEntries k).Nodup := by
  refine List.Nodup.map ?_ (List.nodup_range k)
  intro m n hmn
  have h2 : List.replicate m 'a' = List.replicate n 'a' := congrArg String.data hmn
  have h3 := congrArg List.length h2
  simpa using h3

theorem distinctEntries_head :
    distinctEntries 1001
      = "" :: (List.range 1000).map (fun n => String.mk (List.replicate (n + 1) 'a')) := by
  unfold distinctEntries
  rw [List.range_succ_eq_map]
  simp [List.map_map, Function.comp]

theorem foldl_append_history_entries (l : List String) (h : HistoryState) :
    (l.foldl append_history h).entries = h.entries ++ l := by
  induction l generalizing h with
  | nil => simp
  | cons x xs ih =>
      rw [List.foldl_cons, ih]
      simp [append_history]

theorem foldl_append_history_file (x : String) (xs : List String) (h : HistoryState) :
    ((x :: xs).foldl append_history h).file = save_history (h.entries ++ x :: xs) := by
  induction xs generalizing h x with
  | nil => simp [append_history]
  | cons y ys ih =>
      rw [List.foldl_cons]
      rw [ih y (append_history h x)]
      simp [append_history]

/-- Counterexample to C4 as stated: after appending 1001 distinct
entries the in-memory history log (the list the cursor navigates)
holds 1001 entries and the first appended entry is still present; only
the persisted file is truncated to 1000 lines. -/
theorem C4_counterexample :
    (distinctEntries 1001).Nodup
    ∧ (distinctEntries 1001).length = 1001
    ∧ ((distinctEntries 1001).foldl append_history (HistoryState.mk [] 0 [])).entries.length
        = 1001
    ∧ "" ∈ ((distinctEntries 1001).foldl append_history (HistoryState.mk [] 0 [])).entries
    ∧ distinctEntries 1001
        = "" :: (List.range 1000).map (fun n => String.mk (List.replicate (n + 1) 'a')) := by
  refine ⟨distinctEntries_nodup 1001, ?_, ?_, ?_, distinctEntries_head⟩
  · simp [distinctEntries]
  · rw [foldl_append_history_entries]
    simp [distinctEntries]
  · rw [foldl_append_history_entries, distinctEntries_head]
    simp

/-- C4 (amended): every append persists immediately, and the persisted
history file always holds exactly the most recent at most 1000 entries
(a suffix of the in-memory log, FIFO eviction); the in-memory entry
list itself is not truncated. -/
theorem C4_history_file_bound (h : HistoryState) (l : List String) (hl : l ≠ []) :
    (l.foldl append_history h).entries = h.entries ++ l
    ∧ (l.foldl append_history h).file = save_history (h.entries ++ l)
    ∧ (l.foldl append_history h).file.length ≤ 1000
    ∧ (l.foldl append_history h).file <:+ h.entries ++ l := by
  rcases l with _ | ⟨x, xs⟩
  · exact absurd rfl hl
  refine ⟨foldl_append_history_entries _ _, foldl_append_history_file x xs h, ?_, ?_⟩
  · rw [foldl_append_history_file x xs h]
    unfold save_history pyTakeLast
    rw [List.length_drop]
    omega
  · rw [foldl_append_history_file x xs h]
    unfold save_history pyTakeLast
    exact List.drop_suffix _ _

/-- Witness for C4 (amended) at a one-entry append. -/
theorem C4_history_file_bound_witness :
    (["a"] : List String) ≠ []
    ∧ (["a"].foldl append_history (HistoryState.mk [] 0 [])).file.length ≤ 1000 :=
  ⟨by decide, (C4_history_file_bound _ ["a"] (by decide)).2.2.1⟩

/-! ### Claim C2 -/

/-- Counterexample to C2 as stated: a remote retrieval that succeeds
with an empty `data` list (stale cache, `force = false`) returns
`servedFromCache = false` but does not replace the snapshot — the old
timestamp and entries survive. -/
theorem C2_counterexample :
    3600 ≤ 9999 - (5 : Nat)
    ∧ fetch_openrouter_models (ModelCache.mk 5 [ModelDesc.mk "a" "A"]) 9999 false
        (Except.ok [])
        = Except.ok ([], false, ModelCache.mk 5 [ModelDesc.mk "a" "A"])
    ∧ ModelCache.mk 5 [ModelDesc.mk "a" "A"] ≠ ModelCache.mk 9999 ([] : List ModelDesc) := by
  decide

/-- C2 (amended): with `force = false`, a non-empty cached snapshot
younger than 3600 seconds is served with `servedFromCache = true` and
the remote is never consulted; otherwise the remote is consulted — a
failure is surfaced unchanged (snapshot untouched), a success with a
non-empty list replaces the snapshot and returns
`servedFromCache = false`, and a success with an empty list returns
`([], false)` leaving the snapshot untouched.  Hence two calls within
the window whose first retrieval yields non-empty entries make exactly
one remote call, with flags `false` then `true`. -/
theorem C2_fetch_freshness (cache : ModelCache) (now : Nat) (e : String)
    (d : List ModelDesc) :
    (cache.data ≠ [] → now - cache.ts < 3600 →
        ∀ remote, fetch_openrouter_models cache now false remote
          = Except.ok (cache.data, true, cache))
    ∧ (¬ (cache.data ≠ [] ∧ now - cache.ts < 3600) →
        fetch_openrouter_models cache now false (Except.error e) = Except.error e)
    ∧ (¬ (cache.data ≠ [] ∧ now - cache.ts < 3600) → d ≠ [] →
        fetch_openrouter_models cache now false (Except.ok d)
          = Except.ok (d, false, ModelCache.mk now d))
    ∧ (¬ (cache.data ≠ [] ∧ now - cache.ts < 3600) →
        fetch_openrouter_models cache now false (Except.ok [])
          = Except.ok ([], false, cache))
    ∧ (∀ now2 remote2, d ≠ [] → now2 - now < 3600 →
        fetch_openrouter_models (ModelCache.mk now d) now2 false remote2
          = Except.ok (d, true, ModelCache.mk now d)) := by
  refine ⟨?_, ?_, ?_, ?_, ?_⟩
  · intro hd ht remote
    unfold fetch_openrouter_models
    rw [if_pos ⟨rfl, hd, ht⟩]
  · intro hnot
    unfold fetch_openrouter_models
    rw [if_neg (fun hc => hnot ⟨hc.2.1, hc.2.2⟩)]
  · intro hnot hd
    unfold fetch_openrouter_models
    rw [if_neg (fun hc => hnot ⟨hc.2.1, hc.2.2⟩)]
    simp [hd]
  · intro hnot
    unfold fetch_openrouter_models
    rw [if_neg (fun hc => hnot ⟨hc.2.1, hc.2.2⟩)]
    simp
  · intro now2 remote2 hd ht
    unfold fetch_openrouter_models
    rw [if_pos ⟨rfl, hd, ht⟩]

/-- Witness for C2 (amended): a fresh non-empty snapshot is served from
cache even when the remote would fail. -/
theorem C2_fetch_freshness_witness :
    ([ModelDesc.mk "a" "A"] : List ModelDesc) ≠ []
    ∧ (100 : Nat) - 5 < 3600
    ∧ fetch_openrouter_models (ModelCache.mk 5 [ModelDesc.mk "a" "A"]) 100 false
        (Except.error "boom")
        = Except.ok ([ModelDesc.mk "a" "A"], true, ModelCache.mk 5 [ModelDesc.mk "a" "A"]) :=
  ⟨by decide, by decide,
   (C2_fetch_freshness (ModelCache.mk 5 [ModelDesc.mk "a" "A"]) 100 "boom" []).1
     (by decide) (by decide) _⟩

/-! ### Claim C5 -/

/-- Counterexample to C5 as stated: the purely numeric token `"0"` is
outside `[1, min(25, len)]` for a one-entry listing, yet it is not
returned unchanged as a literal id — the selection is rejected as
invalid. -/
theorem C5_counterexample :
    pyIsDigit "0" = true
    ∧ select_model "0" [ModelDesc.mk "a" "A"] = SelectOutcome.invalid
    ∧ select_model "0" [ModelDesc.mk "a" "A"] ≠ SelectOutcome.chosen "0" := by
  decide

/-- C5 (amended): a purely numeric token within
`[1, min(25, len(listing))]` resolves to the id at that 1-based
position; a purely numeric token outside that range with a non-empty
listing is rejected as an invalid selection; a non-numeric token — and
a numeric token when the listing is empty — is returned unchanged as a
literal id, with no existence check against the catalog. -/
theorem C5_resolve_token (selection : String) (options : List ModelDesc)
    (hne : selection ≠ "") (hnb : selection ≠ "Select.BLANK") :
    (pyIsDigit selection = true → options ≠ [] →
        1 ≤ pyInt selection → pyInt selection ≤ min 25 options.length →
        (options.getD (pyInt selection - 1) defaultModelDesc).id ≠ "" →
        select_model selection options
          = SelectOutcome.chosen (options.getD (pyInt selection - 1) defaultModelDesc).id)
    ∧ (pyIsDigit selection = true → options ≠ [] →
        ¬ (1 ≤ pyInt selection ∧ pyInt selection ≤ min 25 options.length) →
        select_model selection options = SelectOutcome.invalid)
    ∧ (pyIsDigit selection = false →
        select_model selection options = SelectOutcome.chosen selection)
    ∧ (options = [] →
        select_model selection options = SelectOutcome.chosen selection) := by
  refine ⟨?_, ?_, ?_, ?_⟩
  · intro hdig hopt hlo hhi hid
    simp only [List.getD, List.get?_eq_getElem?] at hid
    simp [select_model, hne, hnb, hdig, hopt, hlo, hhi, hid, List.getD]
  · intro hdig hopt hnrange
    rw [le_min_iff] at hnrange
    simp [select_model, hne, hnb, hdig, hopt, hnrange]
  · intro hdig
    simp [select_model, hne, hnb, hdig]
  · intro hopt
    simp [select_model, hne, hnb, hopt]

/-- Witness for C5 (amended): token `"2"` resolves to the id at
position 2. -/
theorem C5_resolve_token_witness :
    ("2" : String) ≠ ""
    ∧ select_model "2" [ModelDesc.mk "a" "A", ModelDesc.mk "b" "B"]
        = SelectOutcome.chosen "b" := by
  refine ⟨by decide, ?_⟩
  have h := (C5_resolve_token "2" [ModelDesc.mk "a" "A", ModelDesc.mk "b" "B"]
    (by decide) (by decide)).1 (by decide) (by decide) (by decide) (by decide) (by decide)
  exact h.trans (by decide)

/-! ### Claim C6 -/

theorem pyStartsWith_mono (s p q : String) (hqp : pyStartsWith p q = true)
    (hps : pyStartsWith s p = true) : pyStartsWith s q = true := by
  unfold pyStartsWith at hqp hps ⊢
  rw [isPrefixOf_eq_append] at hqp hps ⊢
  obtain ⟨t1, ht1⟩ := hqp
  obtain ⟨t2, ht2⟩ := hps
  exact ⟨t1 ++ t2, by rw [ht2, ht1, List.append_assoc]⟩

/-- Counterexample to C6 as stated: `/modelsextra` is none of the five
exact surface forms, yet it does not fall through to free-text
forwarding — the `/models` branch matches it by prefix. -/
theorem C6_counterexample :
    handle_user_input "/modelsextra" = InputAction.modelsCmd false
    ∧ handle_user_input "/modelsextra" ≠ InputAction.freeText := by
  decide

/-- C6 (amended): the dispatcher matches, case-insensitively, exact
`/exit` and `/clear` but matches `/models` and `/model ` as prefixes
(so e.g. `/modelsextra` is handled as the catalog-listing command, with
force-refresh iff the stripped input ends in `!`); an input falls
through to free-text forwarding exactly when none of these four checks
fire, and in particular every input not beginning with `/` falls
through. -/
theorem C6_command_dispatch (s : String) :
    (handle_user_input s = InputAction.freeText ↔
        pyLower s ≠ "/exit" ∧ pyLower s ≠ "/clear"
        ∧ pyStartsWith (pyLower s) "/models" = false
        ∧ pyStartsWith (pyLower s) "/model " = false)
    ∧ (pyStartsWith (pyLower s) "/" = false → handle_user_input s = InputAction.freeText)
    ∧ (pyStartsWith (pyLower s) "/models" = true →
        handle_user_input s = InputAction.modelsCmd (pyEndsWith (pyLower (pyStrip s)) "!")) := by
  unfold handle_user_input
  split_ifs with h1 h2 h3 h4
  · refine ⟨?_, ?_, ?_⟩
    · simp [h1]
    · intro hc
      rw [h1] at hc
      exact absurd hc (by decide)
    · intro hc
      rw [h1] at hc
      exact absurd hc (by decide)
  · refine ⟨?_, ?_, ?_⟩
    · simp [h2]
    · intro hc
      rw [h2] at hc
      exact absurd hc (by decide)
    · intro hc
      rw [h2] at hc
      exact absurd hc (by decide)
  · refine ⟨?_, ?_, ?_⟩
    · simp [h3]
    · intro hc
      have ht := pyStartsWith_mono (pyLower s) "/models" "/" (by decide) h3
      rw [ht] at hc
      simp at hc
    · intro _
      rfl
  · refine ⟨?_, ?_, ?_⟩
    · simp [h4]
    · intro hc
      have ht := pyStartsWith_mono (pyLower s) "/model " "/" (by decide) h4
      rw [ht] at hc
      simp at hc
    · intro hc
      exact absurd hc h3
  · rw [Bool.not_eq_true] at h3 h4
    refine ⟨?_, ?_, ?_⟩
    · simp [h1, h2, h3, h4]
    · intro _
      rfl
    · intro hc
      rw [h3] at hc
      simp at hc

/-- Witness for C6 (amended): a plain question is forwarded as free
text. -/
theorem C6_command_dispatch_witness :
    pyStartsWith (pyLower "hello") "/" = false
    ∧ handle_user_input "hello" = InputAction.freeText :=
  ⟨by decide, (C6_command_dispatch "hello").2.1 (by decide)⟩

/-! ### Claim C8 -/

/-- Counterexample to C8 as stated: for the query `" b"` (which no
descriptor contains as a substring) the picker is not empty — the code
strips the query to `"b"` before matching. -/
theorem C8_counterexample :
    build_model_options [ModelDesc.mk "ab" "AB"] " b" = [("ab - AB", "ab")]
    ∧ pyContains (pyLower "ab") " b" = false
    ∧ pyContains (pyLower "AB") " b" = false := by
  decide

/-- C8 (amended): the listing filters by the stripped, lowered query —
exactly the descriptors whose id or display name contains it
case-insensitively, the full set when the stripped query is empty —
sorts the result by display name ascending, and displays at most the
first 50 entries in the picker and at most 25 in the interactive
listing. -/
theorem C8_listing (models : List ModelDesc) (query : String) :
    (∀ m, m ∈ filteredByQuery models (pyLower (pyStrip query))
        ↔ m ∈ models
            ∧ (pyLower (pyStrip query) = ""
                ∨ matchesQuery (pyLower (pyStrip query)) m = true))
    ∧ (sortByName (filteredByQuery models (pyLower (pyStrip query)))).Perm
        (filteredByQuery models (pyLower (pyStrip query)))
    ∧ List.Sorted nameLe (sortByName (filteredByQuery models (pyLower (pyStrip query))))
    ∧ List.Sorted nameLe
        ((sortByName (filteredByQuery models (pyLower (pyStrip query)))).take 50)
    ∧ (build_model_options models query).length ≤ 50
    ∧ (models ≠ [] → (format_model_list models).length = 2 + min 25 models.length) := by
  refine ⟨?_, List.perm_insertionSort nameLe _, List.sorted_insertionSort nameLe _, ?_, ?_, ?_⟩
  · intro m
    unfold filteredByQuery
    by_cases hq : pyLower (pyStrip query) = ""
    · simp [hq]
    · simp [hq, List.mem_filter]
  · exact List.Pairwise.sublist (List.take_sublist 50 _) (List.sorted_insertionSort nameLe _)
  · unfold build_model_options
    simp only [List.length_map, List.length_take]
    omega
  · intro hm
    have hlen : (sortByName models).length = models.length :=
      (List.perm_insertionSort nameLe models).length_eq
    unfold format_model_list
    rw [if_neg (by simpa using hm)]
    simp [List.length_mapIdx, hlen]
    omega

/-- Witness for C8 (amended): the interactive listing for a one-entry
catalog renders a header, one entry and a footer. -/
theorem C8_listing_witness :
    ([ModelDesc.mk "a" "A"] : List ModelDesc) ≠ []
    ∧ (format_model_list [ModelDesc.mk "a" "A"]).length = 2 + min 25 1 := by
  refine ⟨by decide, ?_⟩
  have h := (C8_listing [ModelDesc.mk "a" "A"] "").2.2.2.2.2 (by decide)
  exact h

end FinnaMcp
